import Mathlib

/-!
Shallow embedding of the backend request handlers of the AI-PDF-assistant
repository (src/backend/data_handler.py), together with theorems settling
the frozen claims about them.

Modelling conventions:
* The two database tables (users, pdfs) are lists of rows; `fetchone` of a
  SELECT is `List.find?` with the WHERE predicate (first row in table order),
  a SELECT with no WHERE clause followed by `fetchone` is `List.head?`.
* External collaborators (bcrypt hash/verify, the JWT signer, the PDF text
  extractor, the LLM client) are function parameters; the authenticated user
  produced by `require_login` is a plain string argument.
* Python exceptions are an explicit error type: `HTTPException(status, detail)`
  raised by the handlers, and the `UnboundLocalError` that a `finally` block
  raises when it reads a local variable that was never assigned.  A
  `try/except Exception` handler that re-raises is modelled by mapping over
  the error branch; a `finally` runs on both branches.
* The scratch upload directory is a list of the file paths currently present.
* Byte strings are `String`; `len(contents)` is `String.length`, and the
  source's 72-byte bcrypt input cap lives inside the abstract hasher.
-/

/-- A row of the `users` table:
(user_id, user_name, email, password, registration_date). -/
structure UserRow where
  user_id : String
  user_name : String
  email : String
  password : String
  registration_date : String
deriving Repr, DecidableEq

/-- A row of the `pdfs` table:
(user_id, file_name, upload_date, pdf_text, last_updated); `pdf_text` is a
nullable column. -/
structure PdfRow where
  user_id : String
  file_name : String
  upload_date : String
  pdf_text : Option String
  last_updated : String
deriving Repr, DecidableEq

/-- The database state: the two tables used by the handlers. -/
structure DB where
  users : List UserRow
  pdfs : List PdfRow
deriving Repr, DecidableEq

/-- An uploaded multipart file: name, declared content type, and the byte
content delivered by `file.file.read()`. -/
structure UploadedFile where
  filename : String
  content_type : String
  content : String
deriving Repr, DecidableEq

/-- A raised Python exception: either a FastAPI `HTTPException` carrying a
status code and a detail message, or the `UnboundLocalError` raised when a
local variable is read before assignment. -/
inductive PyError where
  | http (status : Nat) (detail : String)
  | unboundLocal (var : String)
deriving Repr, DecidableEq

/-- A single-quote character as a string, used inside detail messages. -/
def squote : String := String.singleton (Char.ofNat 39)

/-- The rendering `str(e)` of an exception, used when the catch-all handler
interpolates the caught exception into its 500 detail message. -/
def strOfPyError : PyError → String
  | .http status detail => toString status ++ ": " ++ detail
  | .unboundLocal v =>
      "local variable " ++ squote ++ v ++ squote ++ " referenced before assignment"

/-- The upload size ceiling of upload_pdf and update_pdf_data:
`max_size = 20 * 1024 * 1024`. -/
def maxSize : Nat := 20 * 1024 * 1024

/-- The scratch directory `UPLOAD_DIR` for temporary uploads. -/
def UPLOAD_DIR : String := "/temp/cag_uploads/"

/-- Writing a file to the scratch directory (`open(file_path, "wb")`):
the path is present afterwards. -/
def writeFile (p : String) (fs : List String) : List String :=
  if fs.contains p then fs else p :: fs

/-- The cleanup step `if os.path.exists(file_path): os.remove(file_path)`. -/
def removeFile (p : String) (fs : List String) : List String :=
  fs.filter (fun q => q != p)

/-- Response of a successful registration. -/
structure RegisterResp where
  message : String
  uuid : String
  user_name : String
  email : String
  registration_date : String
deriving Repr, DecidableEq

/-- Embedding of `register_user` (data_handler.py lines 44-132): validates
the user name, rejects a duplicate user_id or email found by
`SELECT ... WHERE user_id = %s OR email = %s` + fetchone, otherwise hashes
the password and inserts the row.  Returns the result and the new database
state. -/
def register_user (db : DB) (uuid user_name email password : String)
    (bcryptHash : String → String) (registration_date : String) :
    Except PyError RegisterResp × DB :=
  if user_name = "" then
    (.error (.http 400 "User name cannot be empty!"), db)
  else if user_name.length > 15 then
    (.error (.http 400 "User name is too long!"), db)
  else
    let doInsert : Except PyError RegisterResp × DB :=
      let hashed := bcryptHash password
      let newRow : UserRow :=
        { user_id := uuid, user_name := user_name, email := email,
          password := hashed, registration_date := registration_date }
      (.ok { message := "User registered successfully!", uuid := uuid,
             user_name := user_name, email := email,
             registration_date := registration_date },
       { db with users := db.users ++ [newRow] })
    match db.users.find? (fun r => r.user_id == uuid || r.email == email) with
    | some row =>
        if row.user_id == uuid then
          (.error (.http 400 ("UUID " ++ squote ++ uuid ++ squote ++
            " is already registered!")), db)
        else if row.email == email then
          (.error (.http 400 ("Email " ++ squote ++ email ++ squote ++
            " is already exist!")), db)
        else doInsert
    | none => doInsert

/-- Response of a successful login. -/
structure LoginResp where
  message : String
  access_token : String
  token_type : String
deriving Repr, DecidableEq

/-- Embedding of `user_login` (data_handler.py lines 135-189): looks the
user up by `user_name = %s OR email = %s`, answers 401 with the same
"Invalid credentials." detail when no row is found or when bcrypt
verification fails, and otherwise returns a signed token. -/
def user_login (db : DB) (identifier password : String)
    (bcryptVerify : String → String → Bool) (sign_jwt : String → String) :
    Except PyError LoginResp :=
  match db.users.find? (fun r => r.user_name == identifier || r.email == identifier) with
  | none => .error (.http 401 "Invalid credentials.")
  | some row =>
      if bcryptVerify password row.password then
        .ok { message := "Login successful", access_token := sign_jwt row.user_id,
              token_type := "bearer" }
      else
        .error (.http 401 "Invalid credentials.")

/-- Response of a successful upload. -/
structure UploadResp where
  message : String
  uuid : String
  file_name : String
  upload_date : String
  last_updated : String
deriving Repr, DecidableEq

/-- Embedding of `upload_pdf` (data_handler.py lines 192-299).  The
content-type and size checks run before the try block (so they raise a plain
400 with nothing written); inside the try block the file is written to the
scratch path `UPLOAD_DIR + user + "_" + filename`, text is extracted, the
user row is checked, and a pdfs row is inserted.  The
`except Exception` handler catches every exception raised inside the try
block - the 404 and 500 `HTTPException`s included - and re-raises a 500
wrapping `str(e)`; the finally block then removes the scratch file
(`file_path` is always assigned on these paths). -/
def upload_pdf (db : DB) (fs : List String) (current_user : String)
    (file : UploadedFile) (extract : UploadedFile → Option String)
    (upload_date : String) :
    Except PyError UploadResp × DB × List String :=
  if file.content_type != "application/pdf" then
    (.error (.http 400 "Invalid file type. Only PDF files are accepted"), db, fs)
  else if file.content.length > maxSize then
    (.error (.http 400 "The file is too large. Max size allowed is 20 MB"), db, fs)
  else
    let file_path := UPLOAD_DIR ++ current_user ++ "_" ++ file.filename
    let fs1 := writeFile file_path fs
    let tryResult : Except PyError UploadResp × DB :=
      match extract file with
      | none => (.error (.http 500 "Failed to extract text from PDF"), db)
      | some text =>
        match db.users.find? (fun r => r.user_id == current_user) with
        | none => (.error (.http 404 "User ID not found"), db)
        | some _ =>
          let newRow : PdfRow :=
            { user_id := current_user, file_name := file.filename,
              upload_date := upload_date, pdf_text := some text,
              last_updated := upload_date }
          (.ok { message := "File uploaded and text extracted successfully",
                 uuid := current_user, file_name := file.filename,
                 upload_date := upload_date, last_updated := upload_date },
           { db with pdfs := db.pdfs ++ [newRow] })
    let afterExcept : Except PyError UploadResp × DB :=
      match tryResult with
      | (.error e, d) =>
          (.error (.http 500 ("An error accurred during file processing: " ++
            strOfPyError e)), d)
      | ok => ok
    (afterExcept.1, afterExcept.2, removeFile file_path fs1)

/-- Response of a successful update. -/
structure UpdateResp where
  message : String
  uuid : String
  last_updated : String
deriving Repr, DecidableEq

/-- Embedding of `update_pdf_data` (data_handler.py lines 302-409).  The
whole body runs inside a try block: user lookup (404), content-type check
(400), size check (400), write of the scratch file
`UPLOAD_DIR + user + "_update_" + filename`, extraction (500 on failure),
then `UPDATE pdfs SET pdf_text = COALESCE(pdf_text, chr(39)||chr(39)) || %s,
last_updated = %s WHERE user_id = %s AND file_name = %s` with the appended
string `"\n\n" + new_text`, which touches only rows already matching the
user and file name.  The `except Exception` handler catches every exception
- the handler-raised `HTTPException`s included - and re-raises a 500; the
finally block reads `file_path`, raising `UnboundLocalError` on paths where
the try block failed before `file_path` was assigned, and otherwise removes
the scratch file.  The fourth component of `step` records whether
`file_path` was assigned, and with which value. -/
def update_pdf_data (db : DB) (fs : List String) (current_user : String)
    (file : UploadedFile) (extract : UploadedFile → Option String)
    (last_updated : String) :
    Except PyError UpdateResp × DB × List String :=
  let step : Except PyError UpdateResp × DB × List String × Option String :=
    match db.users.find? (fun r => r.user_id == current_user) with
    | none => (.error (.http 404 "User not found."), db, fs, none)
    | some urow =>
      if file.content_type != "application/pdf" then
        (.error (.http 400 "Invalid file type. Only PDF files are accepted!"),
         db, fs, none)
      else if file.content.length > maxSize then
        (.error (.http 400 "The file is too large. Max size allowed is 20 MB"),
         db, fs, none)
      else
        let file_path := UPLOAD_DIR ++ current_user ++ "_update_" ++ file.filename
        let fs1 := writeFile file_path fs
        match extract file with
        | none => (.error (.http 500 "Failed to extract text from PDF!"),
                   db, fs1, some file_path)
        | some new_text =>
          let newPdfs := db.pdfs.map (fun r =>
            if r.user_id == current_user && r.file_name == file.filename then
              { r with
                pdf_text := some ((r.pdf_text.getD "") ++ "\n\n" ++ new_text),
                last_updated := last_updated }
            else r)
          (.ok { message := "Data appended successfully by " ++ urow.user_name,
                 uuid := current_user, last_updated := last_updated },
           { db with pdfs := newPdfs }, fs1, some file_path)
  let afterExcept : Except PyError UpdateResp × DB × List String × Option String :=
    match step with
    | (.error e, d, f, fp) =>
        (.error (.http 500 ("An error accurred during file processing: " ++
          strOfPyError e)), d, f, fp)
    | ok => ok
  match afterExcept with
  | (res, d, f, some fp) => (res, d, removeFile fp f)
  | (_, d, f, none) => (.error (.unboundLocal "file_path"), d, f)

/-- Response of a successful query. -/
structure QueryResp where
  uuid : String
  user : String
  query : String
  LLM_response : String
deriving Repr, DecidableEq

/-- Embedding of `query_data` (data_handler.py lines 412-477): user lookup
(404), then `SELECT pdf_text FROM pdfs WHERE user_id = %s` + fetchone; a
missing row or a falsy `pdf_text` (NULL or the empty string) answers 404,
otherwise the stored text and the query go to the LLM client and its answer
is returned unmodified together with the echoed query. -/
def query_data (db : DB) (current_user query : String)
    (get_llm_response : String → String → String) :
    Except PyError QueryResp :=
  match db.users.find? (fun r => r.user_id == current_user) with
  | none => .error (.http 404 "User not found!")
  | some urow =>
    match db.pdfs.find? (fun r => r.user_id == current_user) with
    | none => .error (.http 404 "No PDF data found for this user")
    | some prow =>
      match prow.pdf_text with
      | none => .error (.http 404 "No PDF data found for this user")
      | some stored =>
        if stored = "" then
          .error (.http 404 "No PDF data found for this user")
        else
          .ok { uuid := current_user, user := urow.user_name, query := query,
                LLM_response := get_llm_response stored query }

/-- Response of a successful account deletion. -/
structure DeleteAccountResp where
  message : String
  uuid : String
deriving Repr, DecidableEq

/-- Embedding of `delete_account` (data_handler.py lines 531-580): user
lookup (404), bcrypt verification of the supplied password (401 on
mismatch), then `DELETE FROM users WHERE user_id = %s`.  No statement
touches the pdfs table. -/
def delete_account (db : DB) (current_user password : String)
    (bcryptVerify : String → String → Bool) :
    Except PyError DeleteAccountResp × DB :=
  match db.users.find? (fun r => r.user_id == current_user) with
  | none => (.error (.http 404 "User not found"), db)
  | some row =>
    if bcryptVerify password row.password then
      (.ok { message := "Your account has been deleted!", uuid := current_user },
       { db with users := db.users.filter (fun r => !(r.user_id == current_user)) })
    else
      (.error (.http 401 "Wrong password."), db)

/-- Response of a successful uploads-history fetch. -/
structure HistoryResp where
  file_name : String
  upload_date : String
  last_updated : String
deriving Repr, DecidableEq

/-- Embedding of `get_uploads_history` (data_handler.py lines 641-694):
user lookup (404), then
`SELECT user_id, file_name, upload_date, last_updated FROM pdfs` + fetchone
- no WHERE clause, so the first pdfs row system-wide, whoever owns it; a
missing row answers 404, otherwise that row's metadata is returned. -/
def get_uploads_history (db : DB) (current_user : String) :
    Except PyError HistoryResp :=
  match db.users.find? (fun r => r.user_id == current_user) with
  | none => .error (.http 404 "UUID not found")
  | some _ =>
    match db.pdfs.head? with
    | none => .error (.http 404 "History not found")
    | some row =>
      .ok { file_name := row.file_name, upload_date := row.upload_date,
            last_updated := row.last_updated }

/-- The stored document text the query operation consults for a user: the
`pdf_text` of the first pdfs row whose `user_id` matches. -/
def storedTextFor (db : DB) (u : String) : Option String :=
  (db.pdfs.find? (fun r => r.user_id == u)).bind (fun r => r.pdf_text)

/-- Finding with a predicate in a list already filtered by that same
predicate finds the same row as in the unfiltered list. -/
theorem find?_filter_self {α : Type} (l : List α) (p : α → Bool) :
    (l.filter p).find? p = l.find? p := by
  induction l with
  | nil => rfl
  | cons a l ih =>
    by_cases h : p a
    · simp [List.filter_cons, h]
    · simp [List.filter_cons, h, ih]

/-- A row-wise UPDATE whose WHERE predicate matches no row of the table
leaves the table unchanged. -/
theorem map_if_id {α : Type} (l : List α) (p : α → Bool) (g : α → α)
    (h : ∀ x ∈ l, p x = false) :
    l.map (fun x => if p x then g x else x) = l := by
  induction l with
  | nil => rfl
  | cons a l ih =>
    have ha := h a (List.mem_cons_self a l)
    simp only [List.map_cons, ha, Bool.false_eq_true, if_false, List.cons.injEq,
      true_and]
    exact ih (fun x hx => h x (List.mem_cons_of_mem a hx))

/-- A fetchone whose WHERE predicate is satisfied by some row of the table
returns a row, and the returned row satisfies the predicate. -/
theorem find?_eq_some_of_mem {α : Type} {l : List α} {p : α → Bool} {x : α}
    (hx : x ∈ l) (hp : p x = true) :
    ∃ y, l.find? p = some y ∧ p y = true := by
  have hs : (l.find? p).isSome := List.find?_isSome.mpr ⟨x, hx, hp⟩
  rcases Option.isSome_iff_exists.mp hs with ⟨y, hy⟩
  exact ⟨y, hy, List.find?_some hy⟩

/-- C4: for every pair of login attempts, one with a known identifier/email
and a wrong password and one with an unknown identifier, the two responses
are identical: the same 401 status with the same "Invalid credentials."
message, so the caller cannot distinguish which check failed. -/
theorem login_failures_indistinguishable (db : DB)
    (identA pwA identB pwB : String)
    (bcryptVerify : String → String → Bool) (sign_jwt : String → String)
    (rowA : UserRow)
    (hA : db.users.find? (fun r => r.user_name == identA || r.email == identA)
       = some rowA)
    (hwrong : bcryptVerify pwA rowA.password = false)
    (hB : db.users.find? (fun r => r.user_name == identB || r.email == identB)
       = none) :
    user_login db identA pwA bcryptVerify sign_jwt =
      user_login db identB pwB bcryptVerify sign_jwt ∧
    user_login db identA pwA bcryptVerify sign_jwt =
      .error (.http 401 "Invalid credentials.") := by
  unfold user_login
  rw [hA, hB]
  simp [hwrong]

/-- Concrete instantiation of the C4 theorem: one user alice with stored
hash "H$p"; a login as alice with the wrong password "z" and a login as the
unknown "nobody" produce the same 401 response. -/
theorem login_failures_indistinguishable_witness :
    user_login
        { users := [{ user_id := "u1", user_name := "alice", email := "a@x.com",
                      password := "H$p", registration_date := "d1" }], pdfs := [] }
        "alice" "z" (fun pw h => h == "H$" ++ pw) (fun u => u ++ "-tok") =
      user_login
        { users := [{ user_id := "u1", user_name := "alice", email := "a@x.com",
                      password := "H$p", registration_date := "d1" }], pdfs := [] }
        "nobody" "z" (fun pw h => h == "H$" ++ pw) (fun u => u ++ "-tok") ∧
    user_login
        { users := [{ user_id := "u1", user_name := "alice", email := "a@x.com",
                      password := "H$p", registration_date := "d1" }], pdfs := [] }
        "alice" "z" (fun pw h => h == "H$" ++ pw) (fun u => u ++ "-tok") =
      .error (.http 401 "Invalid credentials.") :=
  login_failures_indistinguishable _ _ _ _ _ _ _
    { user_id := "u1", user_name := "alice", email := "a@x.com",
      password := "H$p", registration_date := "d1" }
    (by decide) (by decide) (by decide)

/-- C5: for every registration request passing the name validation whose
caller-supplied identifier already exists, or whose email already exists
under a different identifier, register_user fails with the duplicate-field
(conflict) error - surfaced with status 400 per the API mapping - and the
user table is left unchanged: no row is inserted. -/
theorem register_duplicate_conflict (db : DB)
    (uuid name email pw date : String) (bcryptHash : String → String)
    (r : UserRow) (hmem : r ∈ db.users)
    (hdup : r.user_id = uuid ∨ r.email = email)
    (hname1 : name ≠ "") (hname2 : name.length ≤ 15) :
    (∃ d, (register_user db uuid name email pw bcryptHash date).1 =
        .error (.http 400 d)) ∧
    (register_user db uuid name email pw bcryptHash date).2 = db := by
  have hp : (fun (x : UserRow) => x.user_id == uuid || x.email == email) r = true := by
    cases hdup with
    | inl h => simp [h]
    | inr h => simp [h]
  obtain ⟨y, hy, hpy⟩ :=
    @find?_eq_some_of_mem UserRow db.users
      (fun x => x.user_id == uuid || x.email == email) r hmem hp
  unfold register_user
  rw [if_neg hname1, if_neg (by omega : ¬ name.length > 15), hy]
  by_cases h1 : (y.user_id == uuid) = true
  · simp [h1]
  · have h2 : (y.email == email) = true := by
      simp only [Bool.or_eq_true] at hpy
      tauto
    simp [h1, h2]

/-- Concrete instantiation of the C5 theorem: with alice already registered
under identifier "u1" and email "a@x.com", re-registering identifier "u1"
fails with a 400 duplicate error and inserts nothing. -/
theorem register_duplicate_conflict_witness :
    (∃ d, (register_user
        { users := [{ user_id := "u1", user_name := "alice", email := "a@x.com",
                      password := "H", registration_date := "d1" }], pdfs := [] }
        "u1" "bob" "b@x.com" "pw" (fun s => s) "d2").1 =
      .error (.http 400 d)) ∧
    (register_user
        { users := [{ user_id := "u1", user_name := "alice", email := "a@x.com",
                      password := "H", registration_date := "d1" }], pdfs := [] }
        "u1" "bob" "b@x.com" "pw" (fun s => s) "d2").2 =
      { users := [{ user_id := "u1", user_name := "alice", email := "a@x.com",
                    password := "H", registration_date := "d1" }], pdfs := [] } :=
  register_duplicate_conflict _ "u1" "bob" "b@x.com" "pw" "d2" (fun s => s)
    { user_id := "u1", user_name := "alice", email := "a@x.com",
      password := "H", registration_date := "d1" }
    (by decide) (Or.inl rfl) (by decide) (by decide)

/-- C7: for an authenticated query by an existing user, if the user has no
stored document text (no row, NULL text, or empty text) the operation fails
with a 404 not-found error, and if the user has stored non-empty text it
returns the LLM client output unmodified together with the original query
echoed back. -/
theorem query_notfound_or_verbatim (db : DB) (u q : String)
    (llm : String → String → String) (urow : UserRow)
    (hu : db.users.find? (fun r => r.user_id == u) = some urow) :
    (storedTextFor db u = none ∨ storedTextFor db u = some "" →
      query_data db u q llm =
        .error (.http 404 "No PDF data found for this user")) ∧
    (∀ prow s, db.pdfs.find? (fun r => r.user_id == u) = some prow →
      prow.pdf_text = some s → s ≠ "" →
      query_data db u q llm =
        .ok { uuid := u, user := urow.user_name, query := q,
              LLM_response := llm s q }) := by
  constructor
  · intro h
    unfold query_data
    rw [hu]
    unfold storedTextFor at h
    cases hfind : db.pdfs.find? (fun r => r.user_id == u) with
    | none => simp
    | some prow =>
      rw [hfind] at h
      simp only [Option.some_bind] at h
      cases hpt : prow.pdf_text with
      | none => simp [hpt]
      | some s =>
        rw [hpt] at h
        simp only [reduceCtorEq, Option.some.injEq, false_or] at h
        simp [hpt, h]
  · intro prow s hfind hpt hs
    unfold query_data
    rw [hu, hfind]
    simp [hpt, hs]

/-- Concrete instantiation of the C7 theorem: alice has stored text "Hello";
a query returns the LLM output on ("Hello", the query) unmodified, with the
query echoed. -/
theorem query_notfound_or_verbatim_witness :
    query_data
        { users := [{ user_id := "u1", user_name := "alice", email := "a@x.com",
                      password := "H", registration_date := "d1" }],
          pdfs := [{ user_id := "u1", file_name := "f.pdf", upload_date := "d1",
                     pdf_text := some "Hello", last_updated := "d1" }] }
        "u1" "what does it say" (fun c q => c ++ "|" ++ q) =
      .ok { uuid := "u1", user := "alice", query := "what does it say",
            LLM_response := "Hello" ++ "|" ++ "what does it say" } :=
  (query_notfound_or_verbatim _ "u1" "what does it say" (fun c q => c ++ "|" ++ q)
      { user_id := "u1", user_name := "alice", email := "a@x.com",
        password := "H", registration_date := "d1" }
      (by decide)).2
    { user_id := "u1", file_name := "f.pdf", upload_date := "d1",
      pdf_text := some "Hello", last_updated := "d1" }
    "Hello" (by decide) rfl (by decide)

/-- C9: for every successful delete-account operation (user found, password
verified), exactly the rows of the user table carrying the caller's
identifier are removed - the rest of the user table is kept - and the pdfs
table is left entirely unchanged: no cascade to documents. -/
theorem delete_account_no_cascade (db : DB) (u pw : String)
    (bcryptVerify : String → String → Bool) (row : UserRow)
    (h : db.users.find? (fun r => r.user_id == u) = some row)
    (hv : bcryptVerify pw row.password = true) :
    (delete_account db u pw bcryptVerify).1 =
      .ok { message := "Your account has been deleted!", uuid := u } ∧
    (delete_account db u pw bcryptVerify).2.pdfs = db.pdfs ∧
    ∀ r : UserRow, r ∈ (delete_account db u pw bcryptVerify).2.users ↔
      r ∈ db.users ∧ r.user_id ≠ u := by
  unfold delete_account
  rw [h]
  simp only [hv, if_true, true_and]
  intro r
  simp [List.mem_filter]

/-- Concrete instantiation of the C9 theorem: deleting alice's account with
the right password removes her user row and leaves bob's user row and both
pdfs rows (including alice's own document) untouched. -/
theorem delete_account_no_cascade_witness :
    (delete_account
        { users := [{ user_id := "u1", user_name := "alice", email := "a@x.com",
                      password := "H$p", registration_date := "d1" },
                    { user_id := "u2", user_name := "bob", email := "b@x.com",
                      password := "H$q", registration_date := "d1" }],
          pdfs := [{ user_id := "u1", file_name := "f.pdf", upload_date := "d1",
                     pdf_text := some "Hello", last_updated := "d1" },
                   { user_id := "u2", file_name := "g.pdf", upload_date := "d1",
                     pdf_text := some "World", last_updated := "d1" }] }
        "u1" "p" (fun pw h => h == "H$" ++ pw)).2.pdfs =
      [{ user_id := "u1", file_name := "f.pdf", upload_date := "d1",
         pdf_text := some "Hello", last_updated := "d1" },
       { user_id := "u2", file_name := "g.pdf", upload_date := "d1",
         pdf_text := some "World", last_updated := "d1" }] :=
  (delete_account_no_cascade _ "u1" "p" (fun pw h => h == "H$" ++ pw)
      { user_id := "u1", user_name := "alice", email := "a@x.com",
        password := "H$p", registration_date := "d1" }
      (by decide) (by decide)).2.1

/-- Evaluation of the upload success path: valid PDF, size within the
ceiling, extraction succeeds, user exists.  A new pdfs row is appended, and
the scratch file is written and then removed by the finally block. -/
theorem upload_pdf_success_eval (db : DB) (fs : List String) (u : String)
    (f : UploadedFile) (extract : UploadedFile → Option String) (d t : String)
    (urow : UserRow)
    (hu : db.users.find? (fun r => r.user_id == u) = some urow)
    (hct : f.content_type = "application/pdf")
    (hsz : f.content.length ≤ maxSize)
    (hex : extract f = some t) :
    upload_pdf db fs u f extract d =
      (.ok { message := "File uploaded and text extracted successfully",
             uuid := u, file_name := f.filename, upload_date := d,
             last_updated := d },
       { db with pdfs := db.pdfs ++
          [{ user_id := u, file_name := f.filename, upload_date := d,
             pdf_text := some t, last_updated := d }] },
       removeFile (UPLOAD_DIR ++ u ++ "_" ++ f.filename)
         (writeFile (UPLOAD_DIR ++ u ++ "_" ++ f.filename) fs)) := by
  have hb : (f.content_type != "application/pdf") = false := by simp [hct]
  have hns : ¬ (f.content.length > maxSize) := by omega
  unfold upload_pdf
  rw [hb]
  simp only [Bool.false_eq_true, if_false]
  rw [if_neg hns]
  simp only [hex, hu]

/-- Evaluation of the update success path: user exists, valid PDF, size
within the ceiling, extraction succeeds.  Every pdfs row matching the user
and file name gets the blank-line-separated text appended (NULL treated as
empty) and its last-updated date bumped; the scratch file is written and
then removed by the finally block. -/
theorem update_pdf_data_success_eval (db : DB) (fs : List String) (u : String)
    (f : UploadedFile) (extract : UploadedFile → Option String) (d t : String)
    (urow : UserRow)
    (hu : db.users.find? (fun r => r.user_id == u) = some urow)
    (hct : f.content_type = "application/pdf")
    (hsz : f.content.length ≤ maxSize)
    (hex : extract f = some t) :
    update_pdf_data db fs u f extract d =
      (.ok { message := "Data appended successfully by " ++ urow.user_name,
             uuid := u, last_updated := d },
       { db with pdfs := db.pdfs.map (fun r =>
           if r.user_id == u && r.file_name == f.filename then
             { r with pdf_text := some ((r.pdf_text.getD "") ++ "\n\n" ++ t),
                      last_updated := d }
           else r) },
       removeFile (UPLOAD_DIR ++ u ++ "_update_" ++ f.filename)
         (writeFile (UPLOAD_DIR ++ u ++ "_update_" ++ f.filename) fs)) := by
  have hb : (f.content_type != "application/pdf") = false := by simp [hct]
  have hns : ¬ (f.content.length > maxSize) := by omega
  unfold update_pdf_data
  rw [hu]
  simp only [hb, Bool.false_eq_true, if_false]
  rw [if_neg hns]
  simp only [hex]

/-- C6: a non-PDF upload is rejected with 400 before any file reaches the
scratch location and before extraction is invoked (the result is the same
for every extractor), and an upload over the 20 MB ceiling is rejected with
400 with the database left unchanged: no pdfs row is written. -/
theorem upload_rejects_invalid (db : DB) (fs : List String) (u : String)
    (f : UploadedFile) (extract1 extract2 : UploadedFile → Option String)
    (d : String) :
    (f.content_type ≠ "application/pdf" →
      upload_pdf db fs u f extract1 d =
        (.error (.http 400 "Invalid file type. Only PDF files are accepted"),
         db, fs) ∧
      upload_pdf db fs u f extract1 d = upload_pdf db fs u f extract2 d) ∧
    (f.content.length > maxSize →
      (∃ d2, (upload_pdf db fs u f extract1 d).1 = .error (.http 400 d2)) ∧
      (upload_pdf db fs u f extract1 d).2.1 = db) := by
  constructor
  · intro h
    constructor <;> simp [upload_pdf, h]
  · intro h
    by_cases hct : f.content_type = "application/pdf"
    · exact ⟨⟨"The file is too large. Max size allowed is 20 MB",
        by simp [upload_pdf, hct, h]⟩, by simp [upload_pdf, hct, h]⟩
    · exact ⟨⟨"Invalid file type. Only PDF files are accepted",
        by simp [upload_pdf, hct]⟩, by simp [upload_pdf, hct]⟩

/-- Concrete instantiation of the C6 theorem: a text/plain upload returns
400 and leaves the database and the scratch directory untouched, with the
same result under an extractor that succeeds and one that fails. -/
theorem upload_rejects_invalid_witness :
    upload_pdf
        { users := [{ user_id := "u1", user_name := "alice", email := "a@x.com",
                      password := "H", registration_date := "d1" }], pdfs := [] }
        [] "u1"
        { filename := "a.txt", content_type := "text/plain", content := "x" }
        (fun _ => some "T") "d2" =
      (.error (.http 400 "Invalid file type. Only PDF files are accepted"),
       { users := [{ user_id := "u1", user_name := "alice", email := "a@x.com",
                     password := "H", registration_date := "d1" }], pdfs := [] },
       []) ∧
    upload_pdf
        { users := [{ user_id := "u1", user_name := "alice", email := "a@x.com",
                      password := "H", registration_date := "d1" }], pdfs := [] }
        [] "u1"
        { filename := "a.txt", content_type := "text/plain", content := "x" }
        (fun _ => some "T") "d2" =
      upload_pdf
        { users := [{ user_id := "u1", user_name := "alice", email := "a@x.com",
                      password := "H", registration_date := "d1" }], pdfs := [] }
        [] "u1"
        { filename := "a.txt", content_type := "text/plain", content := "x" }
        (fun _ => none) "d2" :=
  (upload_rejects_invalid _ [] "u1"
      { filename := "a.txt", content_type := "text/plain", content := "x" }
      (fun _ => some "T") (fun _ => none) "d2").1 (by decide)

/-- C10: an authenticated update by an existing user whose pdfs table has no
row matching both the user identifier and the uploaded file name returns the
success response "Data appended successfully by ..." while leaving the
database entirely unchanged: no row is created and no text is stored. -/
theorem update_without_row_silently_succeeds (db : DB) (fs : List String)
    (u : String) (f : UploadedFile) (extract : UploadedFile → Option String)
    (d t : String) (urow : UserRow)
    (hu : db.users.find? (fun r => r.user_id == u) = some urow)
    (hct : f.content_type = "application/pdf")
    (hsz : f.content.length ≤ maxSize)
    (hex : extract f = some t)
    (hnone : ∀ r ∈ db.pdfs, ¬(r.user_id = u ∧ r.file_name = f.filename)) :
    (update_pdf_data db fs u f extract d).1 =
      .ok { message := "Data appended successfully by " ++ urow.user_name,
            uuid := u, last_updated := d } ∧
    (update_pdf_data db fs u f extract d).2.1 = db := by
  rw [update_pdf_data_success_eval db fs u f extract d t urow hu hct hsz hex]
  refine ⟨rfl, ?_⟩
  have hmap := map_if_id db.pdfs
    (fun r => r.user_id == u && r.file_name == f.filename)
    (fun r => { r with pdf_text := some ((r.pdf_text.getD "") ++ "\n\n" ++ t),
                       last_updated := d })
    (by
      intro x hx
      rw [Bool.eq_false_iff]
      intro hcon
      rw [Bool.and_eq_true, beq_iff_eq, beq_iff_eq] at hcon
      exact hnone x hx hcon)
  simp only [hmap]

/-- Concrete instantiation of the C10 theorem: alice has one pdfs row for
"other.pdf"; an update carrying "missing.pdf" answers success and the pdfs
table is unchanged. -/
theorem update_without_row_silently_succeeds_witness :
    (update_pdf_data
        { users := [{ user_id := "u1", user_name := "alice", email := "a@x.com",
                      password := "H", registration_date := "d1" }],
          pdfs := [{ user_id := "u1", file_name := "other.pdf",
                     upload_date := "d1", pdf_text := some "Old",
                     last_updated := "d1" }] }
        [] "u1"
        { filename := "missing.pdf", content_type := "application/pdf",
          content := "x" }
        (fun g => some g.content) "d2").1 =
      .ok { message := "Data appended successfully by " ++ "alice",
            uuid := "u1", last_updated := "d2" } ∧
    (update_pdf_data
        { users := [{ user_id := "u1", user_name := "alice", email := "a@x.com",
                      password := "H", registration_date := "d1" }],
          pdfs := [{ user_id := "u1", file_name := "other.pdf",
                     upload_date := "d1", pdf_text := some "Old",
                     last_updated := "d1" }] }
        [] "u1"
        { filename := "missing.pdf", content_type := "application/pdf",
          content := "x" }
        (fun g => some g.content) "d2").2.1 =
      { users := [{ user_id := "u1", user_name := "alice", email := "a@x.com",
                    password := "H", registration_date := "d1" }],
        pdfs := [{ user_id := "u1", file_name := "other.pdf",
                   upload_date := "d1", pdf_text := some "Old",
                   last_updated := "d1" }] } :=
  update_without_row_silently_succeeds _ [] "u1"
    { filename := "missing.pdf", content_type := "application/pdf",
      content := "x" }
    (fun g => some g.content) "d2" "x"
    { user_id := "u1", user_name := "alice", email := "a@x.com",
      password := "H", registration_date := "d1" }
    (by decide) rfl (by decide) rfl (by decide)

/-- Decidable equality of handler results, so concrete runs of the handlers
can be checked by evaluation. -/
instance {ε α : Type} [DecidableEq ε] [DecidableEq α] :
    DecidableEq (Except ε α) := fun x y =>
  match x, y with
  | .ok a, .ok b =>
      if h : a = b then .isTrue (congrArg Except.ok h)
      else .isFalse (fun hc => h (Except.ok.inj hc))
  | .ok _, .error _ => .isFalse (fun hc => Except.noConfusion hc)
  | .error _, .ok _ => .isFalse (fun hc => Except.noConfusion hc)
  | .error a, .error b =>
      if h : a = b then .isTrue (congrArg Except.error h)
      else .isFalse (fun hc => h (Except.error.inj hc))

/-- One registered user and an initially empty pdfs table, for the
two-sequential-updates scenario. -/
def dbC1 : DB :=
  { users := [{ user_id := "u1", user_name := "alice", email := "a@x.com",
                password := "H", registration_date := "d0" }], pdfs := [] }

/-- First PDF of the two-sequential-updates scenario; extraction yields "A". -/
def fC1a : UploadedFile :=
  { filename := "file1.pdf", content_type := "application/pdf", content := "A" }

/-- Second PDF of the two-sequential-updates scenario; extraction yields "B". -/
def fC1b : UploadedFile :=
  { filename := "file2.pdf", content_type := "application/pdf", content := "B" }

/-- An extractor that reads the file content as the extracted text. -/
def exC1 : UploadedFile → Option String := fun g => some g.content

/-- Counterexample to C1: starting from a user with no stored documents, two
sequential update operations carrying file1 (extract "A") and file2
(extract "B") both report success, yet the stored document text for the
user is absent - not "A" ++ blank line ++ "B" - because the UPDATE statement
matches no (user, file name) row and inserts nothing. -/
theorem sequential_updates_concatenation_counterexample :
    (update_pdf_data
        (update_pdf_data dbC1 [] "u1" fC1a exC1 "d1").2.1
        (update_pdf_data dbC1 [] "u1" fC1a exC1 "d1").2.2
        "u1" fC1b exC1 "d2").1 =
      .ok { message := "Data appended successfully by alice", uuid := "u1",
            last_updated := "d2" } ∧
    storedTextFor
      (update_pdf_data
        (update_pdf_data dbC1 [] "u1" fC1a exC1 "d1").2.1
        (update_pdf_data dbC1 [] "u1" fC1a exC1 "d1").2.2
        "u1" fC1b exC1 "d2").2.1 "u1" = none ∧
    storedTextFor
      (update_pdf_data
        (update_pdf_data dbC1 [] "u1" fC1a exC1 "d1").2.1
        (update_pdf_data dbC1 [] "u1" fC1a exC1 "d1").2.2
        "u1" fC1b exC1 "d2").2.1 "u1" ≠ some ("A" ++ "\n\n" ++ "B") := by
  decide

/-- C1 (amended): an update appends only to an already-stored row matching
both the user and the file name.  After an upload of file f1 (extracting
t1) and a subsequent update carrying a file with the same name (extracting
t2), by a user with no prior row for that file name, the stored text of the
resulting row is t1, followed by a blank-line separator, followed by t2 -
and repeated same-name updates keep appending blank-line-separated extracts
in arrival order. -/
theorem upload_then_update_concatenates (db : DB) (fs : List String)
    (u : String) (f1 f2 : UploadedFile)
    (extract : UploadedFile → Option String)
    (d1 d2 t1 t2 : String) (urow : UserRow)
    (hu : db.users.find? (fun r => r.user_id == u) = some urow)
    (hct1 : f1.content_type = "application/pdf")
    (hsz1 : f1.content.length ≤ maxSize)
    (hex1 : extract f1 = some t1)
    (hct2 : f2.content_type = "application/pdf")
    (hsz2 : f2.content.length ≤ maxSize)
    (hex2 : extract f2 = some t2)
    (hname : f2.filename = f1.filename)
    (hnone : ∀ r ∈ db.pdfs, ¬(r.user_id = u ∧ r.file_name = f1.filename)) :
    (update_pdf_data (upload_pdf db fs u f1 extract d1).2.1
        (upload_pdf db fs u f1 extract d1).2.2 u f2 extract d2).2.1.pdfs =
      db.pdfs ++
        [{ user_id := u, file_name := f1.filename, upload_date := d1,
           pdf_text := some (t1 ++ "\n\n" ++ t2), last_updated := d2 }] := by
  rw [upload_pdf_success_eval db fs u f1 extract d1 t1 urow hu hct1 hsz1 hex1]
  dsimp only
  rw [update_pdf_data_success_eval
    { users := db.users,
      pdfs := db.pdfs ++
        [{ user_id := u, file_name := f1.filename, upload_date := d1,
           pdf_text := some t1, last_updated := d1 }] }
    (removeFile (UPLOAD_DIR ++ u ++ "_" ++ f1.filename)
      (writeFile (UPLOAD_DIR ++ u ++ "_" ++ f1.filename) fs))
    u f2 extract d2 t2 urow hu hct2 hsz2 hex2]
  have hpred : ∀ x ∈ db.pdfs,
      (x.user_id == u && x.file_name == f2.filename) = false := by
    intro x hx
    rw [Bool.eq_false_iff]
    intro hcon
    rw [Bool.and_eq_true, beq_iff_eq, beq_iff_eq, hname] at hcon
    exact hnone x hx hcon
  simp only [List.map_append, map_if_id db.pdfs _ _ hpred]
  simp [hname]

/-- Concrete instantiation of the amended C1 theorem: uploading doc.pdf
(extract "A") and then updating with a file also named doc.pdf (extract
"B") stores exactly "A" ++ blank line ++ "B". -/
theorem upload_then_update_concatenates_witness :
    (update_pdf_data
        (upload_pdf dbC1 [] "u1"
          { filename := "doc.pdf", content_type := "application/pdf",
            content := "A" } exC1 "d1").2.1
        (upload_pdf dbC1 [] "u1"
          { filename := "doc.pdf", content_type := "application/pdf",
            content := "A" } exC1 "d1").2.2
        "u1"
        { filename := "doc.pdf", content_type := "application/pdf",
          content := "B" } exC1 "d2").2.1.pdfs =
      [{ user_id := "u1", file_name := "doc.pdf", upload_date := "d1",
         pdf_text := some ("A" ++ "\n\n" ++ "B"), last_updated := "d2" }] :=
  upload_then_update_concatenates dbC1 [] "u1"
    { filename := "doc.pdf", content_type := "application/pdf", content := "A" }
    { filename := "doc.pdf", content_type := "application/pdf", content := "B" }
    exC1 "d1" "d2" "A" "B"
    { user_id := "u1", user_name := "alice", email := "a@x.com",
      password := "H", registration_date := "d0" }
    (by decide) rfl (by decide) rfl rfl (by decide) rfl rfl (by decide)

/-- Two registered users where the single document row system-wide belongs
to bob and holds non-empty text. -/
def dbC2 : DB :=
  { users := [{ user_id := "uA", user_name := "alice", email := "a@x.com",
                password := "H", registration_date := "d0" },
              { user_id := "uB", user_name := "bob", email := "b@x.com",
                password := "H", registration_date := "d0" }],
    pdfs := [{ user_id := "uB", file_name := "doc.pdf", upload_date := "d0",
               pdf_text := some "secret", last_updated := "d0" }] }

/-- Counterexample to C2: with the single document row system-wide owned by
bob and holding non-empty text, a query by alice answers 404 instead of
consulting that row, while the same query by bob returns the LLM output on
bob's text - so the query lookup does filter the document table by the
authenticated user identifier, contrary to the claim. -/
theorem query_filters_by_user_counterexample :
    query_data dbC2 "uA" "q" (fun c q => c ++ "|" ++ q) =
      .error (.http 404 "No PDF data found for this user") ∧
    query_data dbC2 "uB" "q" (fun c q => c ++ "|" ++ q) =
      .ok { uuid := "uB", user := "bob", query := "q",
            LLM_response := "secret" ++ "|" ++ "q" } := by
  decide

/-- C2 (amended): the upload-history lookup fetches at most one document
row system-wide without filtering by the authenticated user - the first
pdfs row in table order is returned, whoever owns it - while the query
lookup does filter the document table by the authenticated user identifier:
its result is unchanged when every other user's rows are dropped. -/
theorem history_unfiltered_query_filtered (db : DB) (u q : String)
    (llm : String → String → String) (urow : UserRow) (r : PdfRow)
    (hu : db.users.find? (fun x => x.user_id == u) = some urow)
    (hr : db.pdfs.head? = some r) :
    get_uploads_history db u =
      .ok { file_name := r.file_name, upload_date := r.upload_date,
            last_updated := r.last_updated } ∧
    query_data db u q llm =
      query_data { db with pdfs := db.pdfs.filter (fun x => x.user_id == u) }
        u q llm := by
  constructor
  · unfold get_uploads_history
    rw [hu, hr]
  · unfold query_data
    dsimp only
    rw [hu, find?_filter_self db.pdfs (fun x => x.user_id == u)]

/-- Concrete instantiation of the amended C2 theorem: alice's history call
returns the metadata of bob's row (the one row system-wide), and alice's
query result equals the result over the table restricted to alice's own
rows. -/
theorem history_unfiltered_query_filtered_witness :
    get_uploads_history dbC2 "uA" =
      .ok { file_name := "doc.pdf", upload_date := "d0",
            last_updated := "d0" } ∧
    query_data dbC2 "uA" "q" (fun c q => c ++ "|" ++ q) =
      query_data
        { dbC2 with pdfs := dbC2.pdfs.filter (fun x => x.user_id == "uA") }
        "uA" "q" (fun c q => c ++ "|" ++ q) :=
  history_unfiltered_query_filtered dbC2 "uA" "q" (fun c q => c ++ "|" ++ q)
    { user_id := "uA", user_name := "alice", email := "a@x.com",
      password := "H", registration_date := "d0" }
    { user_id := "uB", file_name := "doc.pdf", upload_date := "d0",
      pdf_text := some "secret", last_updated := "d0" }
    (by decide) (by decide)

/-- One registered user and an empty pdfs table, for the non-PDF update
scenario. -/
def dbC3 : DB :=
  { users := [{ user_id := "u1", user_name := "alice", email := "a@x.com",
                password := "H", registration_date := "d0" }], pdfs := [] }

/-- C3 (code bug): an authenticated update whose file has a non-PDF content
type does not fail with the documented 400 bad request.  The 400 raised
inside the try block is caught by the catch-all exception handler and
replaced by a 500, and the finally block then reads the never-assigned
file_path local, so the call actually ends in UnboundLocalError; the
database and the scratch directory are untouched. -/
theorem update_non_pdf_not_bad_request :
    update_pdf_data dbC3 [] "u1"
        { filename := "a.txt", content_type := "text/plain", content := "x" }
        (fun _ => some "T") "d2" =
      (.error (.unboundLocal "file_path"), dbC3, []) ∧
    (update_pdf_data dbC3 [] "u1"
        { filename := "a.txt", content_type := "text/plain", content := "x" }
        (fun _ => some "T") "d2").1 ≠
      .error (.http 400 "Invalid file type. Only PDF files are accepted!") := by
  decide

/-- C8 (code bug): on an update exit path that fails before the scratch
path is assigned - here an update by an identifier absent from the users
table - the finally-block cleanup step itself fails: it reads the
never-assigned file_path local and raises UnboundLocalError, so the cleanup
step is not failure-free on every exit path. -/
theorem update_cleanup_unbound_local :
    update_pdf_data { users := [], pdfs := [] }
        [UPLOAD_DIR ++ "leftover"] "u9"
        { filename := "b.pdf", content_type := "application/pdf",
          content := "y" }
        (fun _ => some "T") "d2" =
      (.error (.unboundLocal "file_path"), { users := [], pdfs := [] },
       [UPLOAD_DIR ++ "leftover"]) := by
  decide
